import Mathlib

/-!
Verification of the frame-alignment and video-compilation engine of the
visual-databases project (src/modules/adjust.py and src/modules/compile.py).

The Python functions are shallowly embedded as Lean definitions:
pure integer arithmetic becomes arithmetic on `ℕ`/`ℤ`, floating-point
geometry (Euclidean distances via `math.hypot`, ratios) is idealised over
`ℝ` with `Real.sqrt`, Python's `int()` truncation becomes `pyTrunc`,
fallible operations (list indexing that can raise `IndexError`, division
that can raise `ZeroDivisionError`) return `Option`, and external
libraries (PIL image operations, `face_recognition` landmark detection,
`random.randint`) are abstracted as parameters.
-/

namespace VisualDB

/-! ## Continuity bucketizer (`compile.get_source_frame_buckets`)

A source frame file is named `<ordinal>_<ratio>.jpg`; the bucketizer
sorts the files by ordinal and only ever inspects the ordinal, so frames
are modelled by their ordinals (`ℕ`).  Python mutates a list of lists
through `buckets[-1]` / `pop(-2)`; the state is modelled as the list of
already-closed buckets plus the current in-progress bucket, with the
Python return value `buckets` being `closed ++ [current]`. -/

/-- State of `get_source_frame_buckets`' main loop: the buckets that have
been closed (and survived the length check) so far, and the in-progress
bucket `source_frame_buckets[-1]`. -/
structure BState where
  closed : List (List ℕ)
  current : List ℕ
  deriving DecidableEq, Repr

/-- Closing the in-progress bucket: "Remove the previous bucket if it
amounts to less than half a second of video (fps / 2)" — the popped bucket
is dropped when its length is below `int(fps / 2)`, i.e. `fps / 2` in `ℕ`
(compile.py lines 355-357). -/
def closeBucket (fps : ℕ) (closed : List (List ℕ)) (current : List ℕ) :
    List (List ℕ) :=
  if current.length < fps / 2 then closed else closed ++ [current]

/-- One iteration of the `for frame_name in source_frames[1:]` loop of
`get_source_frame_buckets` (compile.py lines 337-359).
`previous_frame_number` is read once, as the tail of the in-progress
bucket, before the gap tests, so the source's `gap == 2` `if` and the
`gap == 3` / `gap > 3` `if`/`elif` chain are mutually exclusive and the
loop body is this 4-way branch followed by the unconditional
`source_frame_buckets[-1].append(frame_name)`: a gap of 2 first appends
one duplicate of the tail, a gap of 3 appends two, a gap greater than 3
closes the bucket and starts a fresh one. -/
def bucketStep (fps : ℕ) (s : BState) (frame_number : ℕ) : BState :=
  let previous_frame_number := s.current.getLastD 0
  if frame_number = previous_frame_number + 2 then
    { s with current := s.current ++ [previous_frame_number, frame_number] }
  else if frame_number = previous_frame_number + 3 then
    { s with current :=
        s.current ++ [previous_frame_number, previous_frame_number, frame_number] }
  else if previous_frame_number + 3 < frame_number then
    { closed := closeBucket fps s.closed s.current, current := [frame_number] }
  else
    { s with current := s.current ++ [frame_number] }

/-- `compile.get_source_frame_buckets` on the ordinal-sorted list of jpg
frame names of a source.  On an empty directory the Python code evaluates
`source_frames[0]` ("Start off the first bucket manually"), which raises
`IndexError`; that failure is the `none` case. -/
def get_source_frame_buckets (source_frames : List ℕ) (fps : ℕ) :
    Option (List (List ℕ)) :=
  match source_frames with
  | [] => none
  | first :: rest =>
    let final := rest.foldl (bucketStep fps) ⟨[], [first]⟩
    some (final.closed ++ [final.current])

/-- The spec's deletion threshold `ceil(fps/2)`, written for `ℕ`. -/
def ceilHalf (fps : ℕ) : ℕ := (fps + 1) / 2

/-! ## Theorems about the bucketizer -/

/-- **C1.** For fps=12 and sorted ordinals [1,2,4,5,9]: after consuming
ordinal 5 the in-progress bucket is [1,2,2,4,5] (gap 2 bridged by one
duplicate of the tail); ordinal 9 (gap 4 > 3) closes that bucket, which is
deleted because its length 5 is below `int(12/2) = ceil(12/2) = 6`, and
the final bucket list is [[9]]. -/
theorem bucketizer_fps12_trace :
    get_source_frame_buckets [1, 2, 4, 5] 12 = some [[1, 2, 2, 4, 5]] ∧
    ([1, 2, 2, 4, 5] : List ℕ).length = 5 ∧
    ([1, 2, 2, 4, 5] : List ℕ).length < ceilHalf 12 ∧
    ceilHalf 12 = 6 ∧
    get_source_frame_buckets [1, 2, 4, 5, 9] 12 = some [[9]] := by
  refine ⟨rfl, rfl, by decide, rfl, rfl⟩

/-- **C4 counterexample.** The claim "every closed bucket has length ≥
ceil(fps/2)" fails for odd fps: the code's threshold is `int(fps/2)`,
which truncates.  For fps=3 and sorted ordinals [1,10,11] the bucket [1]
is closed with length 1 (not below `int(3/2) = 1`, so it is kept), yet
1 < ceil(3/2) = 2. -/
theorem bucketizer_ceil_threshold_cx :
    List.Sorted (· ≤ ·) ([1, 10, 11] : List ℕ) ∧
    get_source_frame_buckets [1, 10, 11] 3 = some [[1], [10, 11]] ∧
    ([[1], [10, 11]] : List (List ℕ)).dropLast = [[1]] ∧
    ([1] : List ℕ).length < ceilHalf 3 := by
  exact ⟨by decide, rfl, rfl, by decide⟩

/-- A bucket list produced by `closeBucket` only ever gains a bucket that
passed the `int(fps / 2)` length check. -/
theorem closeBucket_invariant (fps : ℕ) (closed : List (List ℕ))
    (current : List ℕ) (h : ∀ b ∈ closed, fps / 2 ≤ b.length) :
    ∀ b ∈ closeBucket fps closed current, fps / 2 ≤ b.length := by
  unfold closeBucket
  split
  · exact h
  · intro b hb
    rcases List.mem_append.mp hb with hb | hb
    · exact h b hb
    · rcases List.mem_singleton.mp hb with rfl
      omega

/-- Every bucket ever added to `closed` by `bucketStep` passed the
`int(fps / 2)` length check. -/
theorem bucketStep_closed_invariant (fps : ℕ) (s : BState) (n : ℕ)
    (h : ∀ b ∈ s.closed, fps / 2 ≤ b.length) :
    ∀ b ∈ (bucketStep fps s n).closed, fps / 2 ≤ b.length := by
  unfold bucketStep
  dsimp only
  split
  · exact h
  · split
    · exact h
    · split
      · exact closeBucket_invariant fps s.closed s.current h
      · exact h

/-- The `closed` invariant is preserved over the whole frame loop. -/
theorem bucketFold_closed_invariant (fps : ℕ) (frames : List ℕ) (s : BState)
    (h : ∀ b ∈ s.closed, fps / 2 ≤ b.length) :
    ∀ b ∈ (frames.foldl (bucketStep fps) s).closed, fps / 2 ≤ b.length := by
  induction frames generalizing s with
  | nil => exact h
  | cons n rest ih =>
    exact ih (bucketStep fps s n) (bucketStep_closed_invariant fps s n h)

/-- **C4 amended.** For every fps and every sorted ordinal sequence, every
bucket in the bucketizer output other than the final in-progress one has
length at least `int(fps/2)` — the code's actual threshold `⌊fps/2⌋`, not
the claimed `ceil(fps/2)`; a just-closed bucket shorter than that is
deleted outright, never merged or retried. -/
theorem bucketizer_floor_threshold (fps : ℕ) (source_frames : List ℕ)
    (hs : List.Sorted (· ≤ ·) source_frames)
    (buckets : List (List ℕ))
    (hb : get_source_frame_buckets source_frames fps = some buckets) :
    ∀ b ∈ buckets.dropLast, fps / 2 ≤ b.length := by
  match source_frames, hb with
  | first :: rest, hb =>
    unfold get_source_frame_buckets at hb
    dsimp only at hb
    have hclosed :
        ∀ b ∈ (rest.foldl (bucketStep fps) ⟨[], [first]⟩).closed,
          fps / 2 ≤ b.length :=
      bucketFold_closed_invariant fps rest ⟨[], [first]⟩ (by intro b hb; cases hb)
    have hbuckets := Option.some.inj hb
    subst hbuckets
    intro b hbmem
    rw [List.dropLast_concat] at hbmem
    exact hclosed b hbmem

/-- Witness for C4 amended: fps=12, ordinals [1,...,6,20]; the closed
bucket [1,...,6] has length 6 ≥ 12/2. -/
theorem bucketizer_floor_threshold_witness :
    List.Sorted (· ≤ ·) ([1, 2, 3, 4, 5, 6, 20] : List ℕ) ∧
    get_source_frame_buckets [1, 2, 3, 4, 5, 6, 20] 12 =
      some [[1, 2, 3, 4, 5, 6], [20]] ∧
    ∀ b ∈ ([[1, 2, 3, 4, 5, 6], [20]] : List (List ℕ)).dropLast,
      12 / 2 ≤ b.length := by
  refine ⟨by decide, rfl, ?_⟩
  exact bucketizer_floor_threshold 12 [1, 2, 3, 4, 5, 6, 20] (by decide)
    [[1, 2, 3, 4, 5, 6], [20]] rfl

/-- **C10.** The bucketizer requires a non-empty input: with no jpg frames
in the adjustments directory, `get_source_frame_buckets` does not return
an empty bucket list — seeding the first bucket evaluates
`source_frames[0]`, which is out of bounds (`none` here, an `IndexError`
in Python), so compiling such a source aborts for every fps. -/
theorem bucketizer_empty_input_aborts :
    ∀ fps : ℕ, get_source_frame_buckets [] fps = none := by
  intro fps
  rfl

/-! ## Frame matcher (`compile.get_random_matching_frame`)

A file path is modelled as its list of `/`-separated components, so
`possible_match.split("/")[-1]` is `List.getLastD`.  The ratio index
`frame_dict` is modelled as a function `ℤ → Option (List Path)`
(`dict.get` with a default).  The mouth-open ratio that the code parses
out of the target file name `<ordinal>_<ratio>.jpg` is passed alongside
the name.  `random.randint(0, num_of_options - 1)` is modelled by an
arbitrary draw sequence `draws : ℕ → ℕ`, indexed by probe position and
reduced mod `num_of_options` (which is positive whenever a draw is made),
so every sequence of in-range random results is represented. -/

/-- A file path, as its `/`-separated components. -/
abbrev Path := List String

/-- `possible_match.split("/")[-1]`. -/
def baseName (p : Path) : String := p.getLastD ""

/-- The error update at the bottom of the probe loop:
`if current_error < 1: current_error -= 1` then `current_error *= -1`. -/
def nextError (current_error : ℤ) : ℤ :=
  if current_error < 1 then -(current_error - 1) else -current_error

/-- The value of `current_error` entering the k-th iteration of the
`while current_error < 20` loop, starting from 0. -/
def errorSeq : ℕ → ℤ
  | 0 => 0
  | k + 1 => nextError (errorSeq k)

/-- The offsets probed by the `while current_error < 20` loop: `errorSeq`
stays below 20 for exactly 39 steps (see `matcher_probe_schedule`), so the
loop body runs for `errorSeq 0, …, errorSeq 38`. -/
def probeOffsets : List ℤ := (List.range 39).map errorSeq

/-- The body of the probe loop of `get_random_matching_frame`
(compile.py lines 387-410), for the probe at position `ke.1` with offset
`ke.2`: skip the offset if `current_ratio` falls outside [1,100];
otherwise look the ratio up (defaulting to `[matching_frame]`), and if
options exist and it is not the degenerate offset-0 single-option case,
draw one and overwrite `matching_frame` with it when its base name
differs from the target's file name. -/
def probeStep (frame : String) (frame_dict : ℤ → Option (List Path))
    (mouth_open_ratio : ℤ) (draws : ℕ → ℕ) (matching_frame : Path)
    (ke : ℕ × ℤ) : Path :=
  let current_ratio := mouth_open_ratio + ke.2
  if current_ratio < 1 ∨ 100 < current_ratio then matching_frame
  else
    let matching_options := (frame_dict current_ratio).getD [matching_frame]
    let num_of_options := matching_options.length
    if ¬matching_options.isEmpty ∧ ¬(ke.2 = 0 ∧ num_of_options = 1) then
      let possible_match := matching_options.getD (draws ke.1 % num_of_options)
        matching_frame
      if baseName possible_match ≠ frame then possible_match else matching_frame
    else matching_frame

/-- `compile.get_random_matching_frame`: fold the probe loop over the 39
offsets, starting from the default result `frame_path` ("Default the
matching frame to the frame itself, in case no match can be found"). -/
def get_random_matching_frame (frame : String) (frame_path : Path)
    (mouth_open_ratio : ℤ) (frame_dict : ℤ → Option (List Path))
    (draws : ℕ → ℕ) : Path :=
  probeOffsets.enum.foldl (probeStep frame frame_dict mouth_open_ratio draws)
    frame_path

/-- The exact condition under which the probe at `ke` executes
`matching_frame = matching_options[random_choice_index]`: the candidate
ratio is in range, candidates exist, the probe is not the degenerate
offset-0 single-option case, and the drawn candidate's file name differs
from the target's. -/
def probeSuccess (frame : String) (frame_dict : ℤ → Option (List Path))
    (mouth_open_ratio : ℤ) (draws : ℕ → ℕ) (matching_frame : Path)
    (ke : ℕ × ℤ) : Prop :=
  let current_ratio := mouth_open_ratio + ke.2
  ¬(current_ratio < 1 ∨ 100 < current_ratio) ∧
  (let matching_options := (frame_dict current_ratio).getD [matching_frame]
   ¬matching_options.isEmpty ∧ ¬(ke.2 = 0 ∧ matching_options.length = 1) ∧
   baseName (matching_options.getD (draws ke.1 % matching_options.length)
     matching_frame) ≠ frame)

instance (frame : String) (frame_dict : ℤ → Option (List Path))
    (mouth_open_ratio : ℤ) (draws : ℕ → ℕ) (matching_frame : Path)
    (ke : ℕ × ℤ) :
    Decidable (probeSuccess frame frame_dict mouth_open_ratio draws
      matching_frame ke) := by
  unfold probeSuccess
  infer_instance

/-- The candidate drawn at the probe at `ke` (meaningful when the probe
makes a draw at all). -/
def drawnAt (frame_dict : ℤ → Option (List Path)) (mouth_open_ratio : ℤ)
    (draws : ℕ → ℕ) (matching_frame : Path) (ke : ℕ × ℤ) : Path :=
  let matching_options :=
    (frame_dict (mouth_open_ratio + ke.2)).getD [matching_frame]
  matching_options.getD (draws ke.1 % matching_options.length) matching_frame

/-- Spec-side description of the matcher (from the spec's words: "the last
successful draw wins", "Do not stop at the first success — continue
through all probes"): scan every probe, record the drawn candidate of each
successful probe in an accumulator, and report the accumulator of the last
successful probe (the state is still threaded, because whether a probe
succeeds depends on the result so far through the `[matching_frame]`
lookup default). -/
def lastSuccessfulDrawSpec (frame : String)
    (frame_dict : ℤ → Option (List Path)) (mouth_open_ratio : ℤ)
    (draws : ℕ → ℕ) (matching_frame : Path) (probes : List (ℕ × ℤ))
    (acc : Option Path) : Option Path :=
  match probes with
  | [] => acc
  | ke :: rest =>
    lastSuccessfulDrawSpec frame frame_dict mouth_open_ratio draws
      (probeStep frame frame_dict mouth_open_ratio draws matching_frame ke) rest
      (if probeSuccess frame frame_dict mouth_open_ratio draws matching_frame ke
       then some (drawnAt frame_dict mouth_open_ratio draws matching_frame ke)
       else acc)

/-- A successful probe overwrites the running result with its drawn
candidate; an unsuccessful one leaves it unchanged. -/
theorem probeStep_eq (frame : String) (frame_dict : ℤ → Option (List Path))
    (mouth_open_ratio : ℤ) (draws : ℕ → ℕ) (matching_frame : Path)
    (ke : ℕ × ℤ) :
    probeStep frame frame_dict mouth_open_ratio draws matching_frame ke =
      if probeSuccess frame frame_dict mouth_open_ratio draws matching_frame ke
      then drawnAt frame_dict mouth_open_ratio draws matching_frame ke
      else matching_frame := by
  unfold probeStep probeSuccess drawnAt
  dsimp only
  by_cases h1 : mouth_open_ratio + ke.2 < 1 ∨ 100 < mouth_open_ratio + ke.2
  · rw [if_pos h1, if_neg]
    intro hcon
    exact hcon.1 h1
  · rw [if_neg h1]
    by_cases h2 :
        ¬((frame_dict (mouth_open_ratio + ke.2)).getD [matching_frame]).isEmpty ∧
        ¬(ke.2 = 0 ∧
          ((frame_dict (mouth_open_ratio + ke.2)).getD [matching_frame]).length = 1)
    · rw [if_pos h2]
      by_cases h3 :
          baseName (((frame_dict (mouth_open_ratio + ke.2)).getD [matching_frame]).getD
            (draws ke.1 %
              ((frame_dict (mouth_open_ratio + ke.2)).getD [matching_frame]).length)
            matching_frame) ≠ frame
      · rw [if_pos h3, if_pos ⟨h1, h2.1, h2.2, h3⟩]
      · rw [if_neg h3, if_neg]
        intro hcon
        exact h3 hcon.2.2.2
    · rw [if_neg h2, if_neg]
      intro hcon
      exact h2 ⟨hcon.2.1, hcon.2.2.1⟩

/-- When the accumulator already holds the running result, it tracks the
fold exactly. -/
theorem lastSuccessfulDrawSpec_some (frame : String)
    (frame_dict : ℤ → Option (List Path)) (mouth_open_ratio : ℤ)
    (draws : ℕ → ℕ) (probes : List (ℕ × ℤ)) (matching_frame : Path) :
    lastSuccessfulDrawSpec frame frame_dict mouth_open_ratio draws
      matching_frame probes (some matching_frame) =
    some (probes.foldl
      (probeStep frame frame_dict mouth_open_ratio draws) matching_frame) := by
  induction probes generalizing matching_frame with
  | nil => rfl
  | cons ke rest ih =>
    rw [lastSuccessfulDrawSpec, List.foldl_cons]
    by_cases h : probeSuccess frame frame_dict mouth_open_ratio draws
        matching_frame ke
    · rw [if_pos h]
      rw [probeStep_eq frame frame_dict mouth_open_ratio draws matching_frame ke,
        if_pos h]
      exact ih _
    · rw [if_neg h]
      have hstep :
          probeStep frame frame_dict mouth_open_ratio draws matching_frame ke =
            matching_frame := by
        rw [probeStep_eq, if_neg h]
      rw [hstep]
      exact ih _

/-- **C2.** For every target frame, every ratio index, and every sequence
of random draws, the matcher scans the entire offset sequence and returns
the candidate drawn at the last probe whose draw succeeded (in-range
ratio, candidates exist, not the degenerate offset-0 single-option case,
drawn file name differs from the target's) — falling back to `frame_path`
when no probe ever succeeded — so a larger-magnitude offset's success
overwrites a match found at a smaller offset. -/
theorem matcher_last_successful_draw_wins (frame : String) (frame_path : Path)
    (mouth_open_ratio : ℤ) (frame_dict : ℤ → Option (List Path))
    (draws : ℕ → ℕ) :
    get_random_matching_frame frame frame_path mouth_open_ratio frame_dict
      draws =
    (lastSuccessfulDrawSpec frame frame_dict mouth_open_ratio draws frame_path
      probeOffsets.enum none).getD frame_path := by
  unfold get_random_matching_frame
  generalize probeOffsets.enum = probes
  induction probes generalizing frame_path with
  | nil => rfl
  | cons ke rest ih =>
    rw [lastSuccessfulDrawSpec, List.foldl_cons]
    by_cases h : probeSuccess frame frame_dict mouth_open_ratio draws
        frame_path ke
    · rw [if_pos h]
      have hstep :
          probeStep frame frame_dict mouth_open_ratio draws frame_path ke =
            drawnAt frame_dict mouth_open_ratio draws frame_path ke := by
        rw [probeStep_eq, if_pos h]
      rw [hstep, lastSuccessfulDrawSpec_some]
      rfl
    · rw [if_neg h]
      have hstep :
          probeStep frame frame_dict mouth_open_ratio draws frame_path ke =
            frame_path := by
        rw [probeStep_eq, if_neg h]
      rw [hstep]
      exact ih frame_path

/-- A probe leaves the running result unchanged when its candidate ratio
is out of range (the skip branch) or the index has no entry at that ratio
(the lookup defaults to `[matching_frame]`, and the draw — a no-op
self-assignment at worst — never changes the result). -/
theorem probeStep_keep (frame : String) (frame_dict : ℤ → Option (List Path))
    (mouth_open_ratio : ℤ) (draws : ℕ → ℕ) (matching_frame : Path)
    (ke : ℕ × ℤ)
    (h : mouth_open_ratio + ke.2 < 1 ∨ 100 < mouth_open_ratio + ke.2 ∨
      frame_dict (mouth_open_ratio + ke.2) = none) :
    probeStep frame frame_dict mouth_open_ratio draws matching_frame ke =
      matching_frame := by
  unfold probeStep
  dsimp only
  by_cases hr : mouth_open_ratio + ke.2 < 1 ∨ 100 < mouth_open_ratio + ke.2
  · rw [if_pos hr]
  · rw [if_neg hr]
    have hnone : frame_dict (mouth_open_ratio + ke.2) = none := by
      rcases h with h | h | h
      · exact absurd (Or.inl h) hr
      · exact absurd (Or.inr h) hr
      · exact h
    rw [hnone]
    simp only [Option.getD_none, List.length_singleton, Nat.mod_one,
      List.getD_cons_zero, List.isEmpty_cons, ne_eq, ite_not, ite_self,
      Bool.false_eq_true, not_false_eq_true, true_and]

/-- The whole probe fold keeps the default when every probed ratio is out
of range or absent from the index. -/
theorem matcher_fold_keep (frame : String)
    (frame_dict : ℤ → Option (List Path)) (mouth_open_ratio : ℤ)
    (draws : ℕ → ℕ) (probes : List (ℕ × ℤ)) (matching_frame : Path)
    (h : ∀ ke ∈ probes, mouth_open_ratio + ke.2 < 1 ∨
      100 < mouth_open_ratio + ke.2 ∨
      frame_dict (mouth_open_ratio + ke.2) = none) :
    probes.foldl (probeStep frame frame_dict mouth_open_ratio draws)
      matching_frame = matching_frame := by
  induction probes with
  | nil => rfl
  | cons ke rest ih =>
    rw [List.foldl_cons,
      probeStep_keep frame frame_dict mouth_open_ratio draws matching_frame ke
        (h ke (List.mem_cons_self ke rest))]
    exact ih fun p hp => h p (List.mem_cons_of_mem ke hp)

/-- **C7.** The matcher probes ratio offsets in exactly the fixed order
0, +1, −1, …, +19, −19 — 39 probes (at most 40), never reaching magnitude
20, the `while current_error < 20` guard failing for the first time at
step 39; offsets whose candidate ratio falls outside [1,100] are skipped;
and when the index has no entries at any in-range probed ratio the
matcher returns the original frame's own path unchanged. -/
theorem matcher_probe_schedule :
    probeOffsets =
      [0, 1, -1, 2, -2, 3, -3, 4, -4, 5, -5, 6, -6, 7, -7, 8, -8, 9, -9,
       10, -10, 11, -11, 12, -12, 13, -13, 14, -14, 15, -15, 16, -16,
       17, -17, 18, -18, 19, -19] ∧
    (∀ e ∈ probeOffsets, e.natAbs < 20) ∧
    probeOffsets.length = 39 ∧
    probeOffsets.length ≤ 40 ∧
    errorSeq 39 = 20 ∧
    (∀ k < 39, errorSeq k < 20) ∧
    (∀ (frame : String) (frame_dict : ℤ → Option (List Path))
       (mouth_open_ratio : ℤ) (draws : ℕ → ℕ) (matching_frame : Path)
       (ke : ℕ × ℤ),
      mouth_open_ratio + ke.2 < 1 ∨ 100 < mouth_open_ratio + ke.2 →
      probeStep frame frame_dict mouth_open_ratio draws matching_frame ke =
        matching_frame) ∧
    (∀ (frame : String) (frame_path : Path) (mouth_open_ratio : ℤ)
       (frame_dict : ℤ → Option (List Path)) (draws : ℕ → ℕ),
      (∀ e ∈ probeOffsets, 1 ≤ mouth_open_ratio + e →
        mouth_open_ratio + e ≤ 100 → frame_dict (mouth_open_ratio + e) = none) →
      get_random_matching_frame frame frame_path mouth_open_ratio frame_dict
        draws = frame_path) := by
  refine ⟨by decide, by decide, by decide, by decide, by decide, by decide,
    ?_, ?_⟩
  · intro frame frame_dict mouth_open_ratio draws matching_frame ke h
    exact probeStep_keep frame frame_dict mouth_open_ratio draws
      matching_frame ke (h.imp id Or.inl)
  · intro frame frame_path mouth_open_ratio frame_dict draws h
    unfold get_random_matching_frame
    refine matcher_fold_keep frame frame_dict mouth_open_ratio draws
      probeOffsets.enum frame_path ?_
    intro ke hke
    by_cases h1 : mouth_open_ratio + ke.2 < 1
    · exact Or.inl h1
    · by_cases h2 : 100 < mouth_open_ratio + ke.2
      · exact Or.inr (Or.inl h2)
      · refine Or.inr (Or.inr (h ke.2 ?_ (by omega) (by omega)))
        have := List.snd_mem_of_mem_enum hke
        exact this

/-- Witness for C7's two conditional parts: an out-of-range probe (ratio
200 at offset 0) keeps the result, and a matcher run over an everywhere-
empty index returns the frame's own path. -/
theorem matcher_probe_schedule_witness :
    probeStep "f" (fun _ => none) 200 (fun _ => 0) ["x"] (0, 0) = ["x"] ∧
    get_random_matching_frame "10_50.jpg" ["S", "10_50.jpg"] 50
      (fun _ => none) (fun _ => 0) = ["S", "10_50.jpg"] := by
  constructor
  · exact matcher_probe_schedule.2.2.2.2.2.2.1 "f" (fun _ => none) 200
      (fun _ => 0) ["x"] (0, 0) (Or.inr (by decide))
  · exact matcher_probe_schedule.2.2.2.2.2.2.2 "10_50.jpg" ["S", "10_50.jpg"]
      50 (fun _ => none) (fun _ => 0) (fun e _ _ _ => rfl)

/-! ## The three-source ratio-50 scenario (claim C8) -/

/-- Source A's single adjusted frame at ratio 50 (the target's own file). -/
def pathA : Path := ["ref", "A", "adjustments", "10_50.jpg"]

/-- Source B's single adjusted frame at ratio 50. -/
def pathB : Path := ["ref", "B", "adjustments", "20_50.jpg"]

/-- Source C's single adjusted frame at ratio 50. -/
def pathC : Path := ["ref", "C", "adjustments", "30_50.jpg"]

/-- The path `compile_video` hands to the matcher for the target frame
(`os.path.join(bucket_directory, frame)`). -/
def srcFramePath : Path := ["src", "buckets", "1", "10_50.jpg"]

/-- The ratio index built from sources A, B, C, each contributing exactly
one adjusted frame at ratio 50. -/
def frameDict3 : ℤ → Option (List Path) :=
  fun r => if r = 50 then some [pathA, pathB, pathC] else none

/-- **C8.** Matching source A's frame `10_50.jpg` at ratio 50 against
`frameDict3` never returns A's own file, for every sequence of random
draws (exclusion is by file-name equality); and suitable draw sequences
make the result B's frame at offset 0, and others make it C's. -/
theorem matcher_excludes_own_file :
    (∀ draws : ℕ → ℕ,
      get_random_matching_frame "10_50.jpg" srcFramePath 50 frameDict3
        draws ≠ pathA) ∧
    (∃ draws : ℕ → ℕ,
      get_random_matching_frame "10_50.jpg" srcFramePath 50 frameDict3
        draws = pathB) ∧
    (∃ draws : ℕ → ℕ,
      get_random_matching_frame "10_50.jpg" srcFramePath 50 frameDict3
        draws = pathC) := by
  have henum : probeOffsets.enum =
      (0, (0 : ℤ)) :: (probeOffsets.enum.tail) := by decide
  have htail : ∀ ke ∈ probeOffsets.enum.tail, (50 : ℤ) + ke.2 < 1 ∨
      100 < (50 : ℤ) + ke.2 ∨ frameDict3 (50 + ke.2) = none := by
    decide
  have hrun : ∀ draws : ℕ → ℕ,
      get_random_matching_frame "10_50.jpg" srcFramePath 50 frameDict3 draws =
        probeStep "10_50.jpg" frameDict3 50 draws srcFramePath (0, 0) := by
    intro draws
    unfold get_random_matching_frame
    rw [henum, List.foldl_cons]
    exact matcher_fold_keep "10_50.jpg" frameDict3 50 draws
      probeOffsets.enum.tail _ htail
  refine ⟨?_, ⟨fun _ => 1, ?_⟩, ⟨fun _ => 2, ?_⟩⟩
  · intro draws
    rw [hrun draws]
    have hd : draws 0 % 3 = 0 ∨ draws 0 % 3 = 1 ∨ draws 0 % 3 = 2 := by omega
    simp only [probeStep]
    norm_num [frameDict3]
    rcases hd with hd | hd | hd <;> rw [hd] <;> decide
  · rw [hrun _]
    decide
  · rw [hrun _]
    decide

/-! ## Crop stage (`adjust.crop_image`)

The bounding box arrives as `(left, top, bottom, right)` (the order built
by `get_adjusted_analysis_dict`); the PIL crop box is
`[left, top, right, bottom]`, and the cropped image has size
`(right - left, bottom - top)`.  `int(diff / 2)` on the nonnegative
`diff` is integer division by 2.  A too-small box makes the Python
function return `None` (`none` here). -/

/-- `adjust.crop_image` (adjust.py lines 269-292), returning the PIL crop
box `(left, top, right, bottom)`, or `none` when the bounding box is
rejected as too small. -/
def crop_image (bounding_box : ℤ × ℤ × ℤ × ℤ) : Option (ℤ × ℤ × ℤ × ℤ) :=
  let left := bounding_box.1
  let top := bounding_box.2.1
  let bottom := bounding_box.2.2.1
  let right := bounding_box.2.2.2
  let width := right - left
  let height := bottom - top
  if width < 150 ∨ height < 150 then none
  else if width < height then
    let diff := height - width
    some (left - diff / 2, top, right + diff / 2, bottom)
  else
    let diff := width - height
    some (left, top - diff / 2, right, bottom + diff / 2)

/-- The pixel size `(width, height)` of the image cropped to a PIL box
`(left, top, right, bottom)`. -/
def cropSize (box : ℤ × ℤ × ℤ × ℤ) : ℤ × ℤ :=
  (box.2.2.1 - box.1, box.2.2.2 - box.2.1)

/-- **C3 (claim evaluated at its failing input).** The bounding box
`(left, top, bottom, right) = (0, 0, 151, 150)` has width 150 ≥ 150 and
height 151 ≥ 150, yet the crop is 150×151 — not square: with an odd
dimension difference the code expands *both* sides of the shorter
dimension by `int(diff / 2)`, so the claimed floor/remainder split (and
with it the square-crop invariant) fails; the larger dimension is left
unchanged, as claimed. -/
theorem crop_odd_diff_not_square :
    (151 : ℤ) - 0 ≥ 150 ∧ (150 : ℤ) - 0 ≥ 150 ∧
    crop_image (0, 0, 151, 150) = some (0, 0, 150, 151) ∧
    (crop_image (0, 0, 151, 150)).map cropSize = some (150, 151) ∧
    (150 : ℤ) ≠ 151 := by
  refine ⟨by decide, by decide, rfl, rfl, by decide⟩

/-! ## Mouth-open ratio (`adjust.get_mouth_open_ratio`)

Landmark points are integer pixel coordinates `(x, y)`.  Python's stable
`sorted(..., key=lambda point: point[X])` is insertion sort on the x
coordinate.  `math.hypot` is idealised over `ℝ` with `Real.sqrt`;
Python's `int()` truncation toward zero is `pyTrunc`.  The Python code
divides `open_mouth_height / lip_width` with **no** zero/near-zero guard:
when `lip_width` is 0 the float division raises `ZeroDivisionError`,
modelled as `none`.  Indexing `lip[0]`, `lip[len//2]`, `lip[-1]` is total
in Python only for non-empty landmark lists; the embedding defaults to
`(0, 0)` in the empty case. -/

/-- Python `int()` truncation toward zero on a real. -/
noncomputable def pyTrunc (x : ℝ) : ℤ := if 0 ≤ x then ⌊x⌋ else ⌈x⌉

/-- `sorted(points, key=lambda point: point[X])` — stable sort by x. -/
def sortByX (points : List (ℤ × ℤ)) : List (ℤ × ℤ) :=
  List.insertionSort (fun p q => p.1 ≤ q.1) points

/-- `math.hypot` on integer coordinate differences. -/
noncomputable def hypot (dx dy : ℤ) : ℝ :=
  Real.sqrt ((dx : ℝ) ^ 2 + (dy : ℝ) ^ 2)

/-- Euclidean distance between a lip's first and last point by x
(adjust.py lines 464-465). -/
noncomputable def lipWidthOf (lip : List (ℤ × ℤ)) : ℝ :=
  hypot (((sortByX lip).getLastD (0, 0)).1 - ((sortByX lip).getD 0 (0, 0)).1)
    (((sortByX lip).getLastD (0, 0)).2 - ((sortByX lip).getD 0 (0, 0)).2)

/-- `lip_width`: the average of the two lips' widths (adjust.py line
466). -/
noncomputable def lipWidth (top_lip bottom_lip : List (ℤ × ℤ)) : ℝ :=
  (lipWidthOf bottom_lip + lipWidthOf top_lip) / 2

/-- The x-median point `lip[int(len(lip) / 2)]` of a lip sorted by x. -/
def middlePt (lip : List (ℤ × ℤ)) : ℤ × ℤ :=
  (sortByX lip).getD ((sortByX lip).length / 2) (0, 0)

/-- `open_mouth_height`: Euclidean distance between the x-median points
of the top and bottom lips (adjust.py line 469). -/
noncomputable def openMouthHeight (top_lip bottom_lip : List (ℤ × ℤ)) : ℝ :=
  hypot ((middlePt top_lip).1 - (middlePt bottom_lip).1)
    ((middlePt top_lip).2 - (middlePt bottom_lip).2)

open Classical in
/-- The ratio computation of `adjust.get_mouth_open_ratio` once landmarks
have been found (adjust.py lines 448-475):
`min(max(int((open_mouth_height / lip_width) * 100), 1), 100)`.  The
division is unguarded in the source; a zero `lip_width` raises
`ZeroDivisionError`, modelled as `none`. -/
noncomputable def get_mouth_open_ratio_core (top_lip bottom_lip : List (ℤ × ℤ)) :
    Option ℤ :=
  if lipWidth top_lip bottom_lip = 0 then none
  else
    some (min (max (pyTrunc
      (openMouthHeight top_lip bottom_lip / lipWidth top_lip bottom_lip * 100))
      1) 100)

/-- `Real.sqrt` evaluation on perfect-square integer inputs. -/
theorem hypot_eval (dx dy : ℤ) (r : ℕ) (h : dx ^ 2 + dy ^ 2 = (r : ℤ) ^ 2) :
    hypot dx dy = r := by
  unfold hypot
  have hc : (dx : ℝ) ^ 2 + (dy : ℝ) ^ 2 = ((r : ℕ) : ℝ) ^ 2 := by
    exact_mod_cast congrArg (fun z : ℤ => (z : ℝ)) h
  rw [hc, Real.sqrt_sq (by positivity)]

/-- Top lip of the C5 counterexample configuration: sorted by x it runs
(0,3), (4,0), (15,3), so its width is 15 and its x-median point is
(4,0). -/
def tl5 : List (ℤ × ℤ) := [(0, 3), (4, 0), (15, 3)]

/-- Bottom lip of the C5 counterexample configuration. -/
def bl5 : List (ℤ × ℤ) := [(0, 4), (4, 7), (15, 4)]

/-- Both lips of the C5 configuration have width 15, so the average lip
width is 15. -/
theorem lipWidth_tl5_bl5 : lipWidth tl5 bl5 = 15 := by
  have hb : lipWidthOf bl5 = 15 := by
    unfold lipWidthOf
    rw [show ((sortByX bl5).getLastD (0, 0)).1 -
        ((sortByX bl5).getD 0 (0, 0)).1 = 15 from by decide,
      show ((sortByX bl5).getLastD (0, 0)).2 -
        ((sortByX bl5).getD 0 (0, 0)).2 = 0 from by decide]
    exact hypot_eval 15 0 15 (by decide)
  have ht : lipWidthOf tl5 = 15 := by
    unfold lipWidthOf
    rw [show ((sortByX tl5).getLastD (0, 0)).1 -
        ((sortByX tl5).getD 0 (0, 0)).1 = 15 from by decide,
      show ((sortByX tl5).getLastD (0, 0)).2 -
        ((sortByX tl5).getD 0 (0, 0)).2 = 0 from by decide]
    exact hypot_eval 15 0 15 (by decide)
  unfold lipWidth
  rw [hb, ht]
  norm_num

/-- The mouth height of the C5 configuration is 7. -/
theorem openMouthHeight_tl5_bl5 : openMouthHeight tl5 bl5 = 7 := by
  unfold openMouthHeight
  rw [show (middlePt tl5).1 - (middlePt bl5).1 = 0 from by decide,
    show (middlePt tl5).2 - (middlePt bl5).2 = -7 from by decide]
  exact hypot_eval 0 (-7) 7 (by decide)

/-- On the C5 configuration the code computes ratio 46. -/
theorem ratio_core_tl5_bl5 : get_mouth_open_ratio_core tl5 bl5 = some 46 := by
  unfold get_mouth_open_ratio_core
  rw [if_neg (by rw [lipWidth_tl5_bl5]; norm_num)]
  rw [lipWidth_tl5_bl5, openMouthHeight_tl5_bl5]
  have htr : pyTrunc ((7 : ℝ) / 15 * 100) = 46 := by
    unfold pyTrunc
    rw [if_pos (by positivity), show (7 : ℝ) / 15 * 100 = 140 / 3 by norm_num,
      Int.floor_eq_iff]
    constructor <;> norm_num
  rw [htr]
  norm_num

/-- **C5 counterexample.** On the lip configuration `tl5`/`bl5` the ratio
`height/width × 100 = 140/3 ≈ 46.67`; the claimed
`clamp(round(height/width × 100), 1, 100)` is 47, but the code computes
46, because Python's `int()` truncates instead of rounding. -/
theorem mouth_ratio_round_cx :
    get_mouth_open_ratio_core tl5 bl5 = some 46 ∧
    min (max (round (openMouthHeight tl5 bl5 / lipWidth tl5 bl5 * 100)) 1)
      100 = 47 ∧
    (46 : ℤ) ≠ 47 := by
  refine ⟨ratio_core_tl5_bl5, ?_, by decide⟩
  rw [openMouthHeight_tl5_bl5, lipWidth_tl5_bl5,
    show (7 : ℝ) / 15 * 100 = 140 / 3 by norm_num]
  norm_num [round_eq]

/-- **C5 amended.** For every lip configuration with nonzero lip width the
code's ratio is `clamp(trunc(height/width × 100), 1, 100)` — `int()`
truncation toward zero, not rounding — and every ratio produced is an
integer in [1, 100]. -/
theorem mouth_ratio_trunc_clamped (top_lip bottom_lip : List (ℤ × ℤ))
    (h : lipWidth top_lip bottom_lip ≠ 0) :
    get_mouth_open_ratio_core top_lip bottom_lip =
      some (min (max (pyTrunc
        (openMouthHeight top_lip bottom_lip / lipWidth top_lip bottom_lip *
          100)) 1) 100) ∧
    ∀ r, get_mouth_open_ratio_core top_lip bottom_lip = some r →
      1 ≤ r ∧ r ≤ 100 := by
  have heq : get_mouth_open_ratio_core top_lip bottom_lip =
      some (min (max (pyTrunc
        (openMouthHeight top_lip bottom_lip / lipWidth top_lip bottom_lip *
          100)) 1) 100) := by
    unfold get_mouth_open_ratio_core
    rw [if_neg h]
  refine ⟨heq, ?_⟩
  intro r hr
  rw [heq] at hr
  have hr' := Option.some.inj hr
  subst hr'
  constructor
  · exact le_min (le_max_right _ _) (by norm_num)
  · exact min_le_right _ _

/-- Witness for C5 amended at the `tl5`/`bl5` configuration. -/
theorem mouth_ratio_trunc_clamped_witness :
    lipWidth tl5 bl5 ≠ 0 ∧
    get_mouth_open_ratio_core tl5 bl5 =
      some (min (max (pyTrunc
        (openMouthHeight tl5 bl5 / lipWidth tl5 bl5 * 100)) 1) 100) := by
  have h : lipWidth tl5 bl5 ≠ 0 := by
    rw [lipWidth_tl5_bl5]
    norm_num
  exact ⟨h, (mouth_ratio_trunc_clamped tl5 bl5 h).1⟩

/-- A degenerate lip whose points all coincide. -/
def coincidentLip : List (ℤ × ℤ) := [(5, 5), (5, 5), (5, 5)]

/-- A second degenerate lip for the C6 witness. -/
def coincidentLip2 : List (ℤ × ℤ) := [(1, 1), (1, 1)]

/-- Coinciding lip points give lip width 0. -/
theorem lipWidth_coincident : lipWidth coincidentLip coincidentLip = 0 := by
  have h : lipWidthOf coincidentLip = 0 := by
    unfold lipWidthOf
    rw [show ((sortByX coincidentLip).getLastD (0, 0)).1 -
        ((sortByX coincidentLip).getD 0 (0, 0)).1 = 0 from by decide,
      show ((sortByX coincidentLip).getLastD (0, 0)).2 -
        ((sortByX coincidentLip).getD 0 (0, 0)).2 = 0 from by decide]
    exact_mod_cast hypot_eval 0 0 0 (by decide)
  unfold lipWidth
  rw [h]
  norm_num

/-- **C6 counterexample.** With all top- and bottom-lip points coinciding
both lip widths are 0; the source has no near-zero-width guard, so the
division `open_mouth_height / lip_width` *is* evaluated with a zero
divisor (a Python `ZeroDivisionError`, the `none` outcome here) — the
claim that the computation never divides by zero fails. -/
theorem mouth_ratio_divzero_cx :
    lipWidthOf coincidentLip = 0 ∧
    lipWidth coincidentLip coincidentLip = 0 ∧
    get_mouth_open_ratio_core coincidentLip coincidentLip = none := by
  refine ⟨?_, lipWidth_coincident, ?_⟩
  · unfold lipWidthOf
    rw [show ((sortByX coincidentLip).getLastD (0, 0)).1 -
        ((sortByX coincidentLip).getD 0 (0, 0)).1 = 0 from by decide,
      show ((sortByX coincidentLip).getLastD (0, 0)).2 -
        ((sortByX coincidentLip).getD 0 (0, 0)).2 = 0 from by decide]
    exact_mod_cast hypot_eval 0 0 0 (by decide)
  · unfold get_mouth_open_ratio_core
    rw [if_pos lipWidth_coincident]

/-- **C6 amended.** The ratio computation has no zero-width guard:
whenever the averaged lip width is zero (as when every lip point
coincides), the division is evaluated with a zero divisor and the
computation fails with `ZeroDivisionError` instead of producing a
ratio. -/
theorem mouth_ratio_zero_width_raises (top_lip bottom_lip : List (ℤ × ℤ))
    (h : lipWidth top_lip bottom_lip = 0) :
    get_mouth_open_ratio_core top_lip bottom_lip = none := by
  unfold get_mouth_open_ratio_core
  rw [if_pos h]

/-- Witness for C6 amended at the two-point coincident lip. -/
theorem mouth_ratio_zero_width_raises_witness :
    lipWidth coincidentLip2 coincidentLip2 = 0 ∧
    get_mouth_open_ratio_core coincidentLip2 coincidentLip2 = none := by
  have h : lipWidth coincidentLip2 coincidentLip2 = 0 := by
    have h0 : lipWidthOf coincidentLip2 = 0 := by
      unfold lipWidthOf
      rw [show ((sortByX coincidentLip2).getLastD (0, 0)).1 -
          ((sortByX coincidentLip2).getD 0 (0, 0)).1 = 0 from by decide,
        show ((sortByX coincidentLip2).getLastD (0, 0)).2 -
          ((sortByX coincidentLip2).getD 0 (0, 0)).2 = 0 from by decide]
      exact_mod_cast hypot_eval 0 0 0 (by decide)
    unfold lipWidth
    rw [h0]
    norm_num
  exact ⟨h, mouth_ratio_zero_width_raises coincidentLip2 coincidentLip2 h⟩

/-! ## The per-frame alignment pipeline (`adjust.adjust`)

Images and the external libraries acting on them are abstracted: `Img` is
an arbitrary type and `PILOps` bundles the PIL operations (`crop`,
`rotate`, `transform`, `resize`, `convert("L")`, `size`) together with
`face_recognition.face_landmarks` (`detect`, returning the landmarks of
the first detected face, or `none`).  `detect` is a function of the image
— the library is deterministic — and `adjust` calls it three times: on
the cropped image (for the mouth ratio), on the cropped image again (for
rotation), and on the rotated image (for centering).  A raised
`ZeroDivisionError` is `Except.error`; a completed run returns
`Except.ok (some (savedFileName, savedImage))`, and an aborted (unusable)
frame returns `Except.ok none` — no file written. -/

/-- The landmark sets of one detected face that adjust.py reads
(`left_eyebrow`, `right_eyebrow`, `top_lip`, `bottom_lip`). -/
structure FaceLandmarks where
  left_eyebrow : List (ℤ × ℤ)
  right_eyebrow : List (ℤ × ℤ)
  top_lip : List (ℤ × ℤ)
  bottom_lip : List (ℤ × ℤ)

/-- The external image operations and the landmark detector. -/
structure PILOps (Img : Type) where
  crop : Img → ℤ × ℤ × ℤ × ℤ → Img
  rotate : Img → ℝ → Img
  transform : Img → ℤ × ℤ → Img
  resize : Img → Img
  grayscale : Img → Img
  size : Img → ℕ × ℕ
  detect : Img → Option FaceLandmarks

/-- The eyebrow-based face angle of `adjust.rotate_image` (lines 316-336):
both eyebrows are sorted by x, the outer left-eyebrow point is the last
and the outer right-eyebrow point is index 1; the angle at the outer
right eyebrow of the right triangle through those points comes from the
law of cosines, converted to degrees. -/
noncomputable def face_angle (lm : FaceLandmarks) : ℝ :=
  let left_eyebrow := sortByX lm.left_eyebrow
  let right_eyebrow := sortByX lm.right_eyebrow
  let outer_left_eyebrow := left_eyebrow.getLastD (0, 0)
  let outer_right_eyebrow := right_eyebrow.getD 1 (0, 0)
  let p1 := (outer_left_eyebrow.1, outer_right_eyebrow.2)
  let p2 := (outer_right_eyebrow.1, outer_right_eyebrow.2)
  let p3 := (outer_left_eyebrow.1, outer_left_eyebrow.2)
  let a : ℝ := ((p2.1 - p1.1 : ℤ) : ℝ) ^ 2 + ((p2.2 - p1.2 : ℤ) : ℝ) ^ 2
  let b : ℝ := ((p2.1 - p3.1 : ℤ) : ℝ) ^ 2 + ((p2.2 - p3.2 : ℤ) : ℝ) ^ 2
  let c : ℝ := ((p3.1 - p1.1 : ℤ) : ℝ) ^ 2 + ((p3.2 - p1.2 : ℤ) : ℝ) ^ 2
  (180 / Real.pi) * Real.arccos ((a + b - c) / Real.sqrt (4 * a * b))

/-- `adjust.rotate_image`: re-detect landmarks on the (cropped) image;
`none` aborts the frame, otherwise rotate by the negated face angle. -/
noncomputable def rotate_image {Img : Type} (ops : PILOps Img) (img : Img) :
    Option Img :=
  match ops.detect img with
  | none => none
  | some lm => some (ops.rotate img (-(face_angle lm)))

/-- `adjust.center_image` (lines 357-392): re-detect landmarks on the
rotated image; `none` aborts the frame, otherwise translate so the mouth
centre reaches `(width/2, height*2/3)` — the affine transform receives
the negated translations.  Python computes `int(image_height * (2/3))`
and the centre coordinates in floats; over `ℝ` that is `pyTrunc`. -/
noncomputable def center_image {Img : Type} (ops : PILOps Img) (img : Img) :
    Option Img :=
  match ops.detect img with
  | none => none
  | some lm =>
    let top_lip := lm.top_lip
    let bottom_lip := lm.bottom_lip
    let top_of_lip := ((top_lip.map Prod.snd).min?).getD 0
    let bottom_of_lip := ((bottom_lip.map Prod.snd).max?).getD 0
    let left_of_lip := min (((top_lip.map Prod.fst).min?).getD 0)
      (((bottom_lip.map Prod.fst).min?).getD 0)
    let right_of_lip := max (((top_lip.map Prod.fst).max?).getD 0)
      (((bottom_lip.map Prod.fst).max?).getD 0)
    let sz := ops.size img
    let mouth_goal : ℤ × ℤ :=
      ((sz.1 : ℤ) / 2, pyTrunc ((sz.2 : ℝ) * (2 / 3)))
    let mouth_center : ℤ × ℤ :=
      (pyTrunc (((left_of_lip + right_of_lip : ℤ) : ℝ) / 2),
       pyTrunc (((top_of_lip + bottom_of_lip : ℤ) : ℝ) / 2))
    let horizontal_translation := mouth_goal.1 - mouth_center.1
    let vertical_translation := mouth_goal.2 - mouth_center.2
    some (ops.transform img (-horizontal_translation, -vertical_translation))

/-- `adjust.get_mouth_open_ratio` on an image: detect landmarks; `none`
landmarks means the Python function returns `None` and the caller keeps
going (`Except.ok none`), while a zero lip width raises
`ZeroDivisionError` (`Except.error ()`). -/
noncomputable def get_mouth_open_ratio {Img : Type} (ops : PILOps Img)
    (img : Img) : Except Unit (Option ℤ) :=
  match ops.detect img with
  | none => Except.ok none
  | some lm =>
    match get_mouth_open_ratio_core lm.top_lip lm.bottom_lip with
    | none => Except.error ()
    | some r => Except.ok (some r)

/-- The saved file name: `save_path.strip(".jpg") + f"_{ratio}.jpg"`; a
`None` ratio is interpolated as the string "None".  (The `strip` removes
`.jpg` from the raw frame name; the stem is taken as given here.) -/
def saveName (stem : String) (ratio : Option ℤ) : String :=
  stem ++ "_" ++ (match ratio with | none => "None" | some r => toString r) ++
    ".jpg"

/-- `adjust.adjust` (lines 203-251): crop (abort if the box is too
small), compute the mouth-open ratio, rotate (abort if no landmarks),
centre (abort if no landmarks), resize, grayscale, save.  `Except.ok
none` = frame aborted, nothing saved; `Except.ok (some (name, img))` =
file `name` written. -/
noncomputable def adjust {Img : Type} (ops : PILOps Img) (img : Img)
    (bounding_box : ℤ × ℤ × ℤ × ℤ) (stem : String) :
    Except Unit (Option (String × Img)) :=
  match crop_image bounding_box with
  | none => Except.ok none
  | some box =>
    let cropped := ops.crop img box
    match get_mouth_open_ratio ops cropped with
    | Except.error e => Except.error e
    | Except.ok mouth_open_ratio =>
      match rotate_image ops cropped with
      | none => Except.ok none
      | some rotated =>
        match center_image ops rotated with
        | none => Except.ok none
        | some centered =>
          Except.ok
            (some (saveName stem mouth_open_ratio,
              ops.grayscale (ops.resize centered)))

/-- **C9.** If the landmark detection of the mouth-ratio stage finds no
landmarks on the cropped image, the frame is aborted with no file
written: the rotation stage re-runs the same detector on the same cropped
image, necessarily finds none again, and returns before the save — for
every behaviour of the image operations and of detection on every other
image (in particular whatever the centering detection would return). -/
theorem adjust_no_landmarks_no_save {Img : Type} (ops : PILOps Img)
    (img : Img) (bounding_box : ℤ × ℤ × ℤ × ℤ) (stem : String)
    (box : ℤ × ℤ × ℤ × ℤ) (hc : crop_image bounding_box = some box)
    (hd : ops.detect (ops.crop img box) = none) :
    adjust ops img bounding_box stem = Except.ok none := by
  unfold adjust
  rw [hc]
  dsimp only
  unfold get_mouth_open_ratio rotate_image
  rw [hd]

/-- Concrete operations on a unit image type for the C9 witness: the
detector finds no landmarks on any image. -/
def unitOps : PILOps Unit where
  crop := fun _ _ => ()
  rotate := fun _ _ => ()
  transform := fun _ _ => ()
  resize := fun _ => ()
  grayscale := fun _ => ()
  size := fun _ => (300, 300)
  detect := fun _ => none

/-- Witness for C9: a 200×200 box is cropped, detection finds no
landmarks, and `adjust` writes nothing. -/
theorem adjust_no_landmarks_no_save_witness :
    crop_image (0, 0, 200, 200) = some (0, 0, 200, 200) ∧
    unitOps.detect (unitOps.crop () (0, 0, 200, 200)) = none ∧
    adjust unitOps () (0, 0, 200, 200) "00042" = Except.ok none := by
  refine ⟨rfl, rfl, ?_⟩
  exact adjust_no_landmarks_no_save unitOps () (0, 0, 200, 200) "00042"
    (0, 0, 200, 200) rfl rfl

end VisualDB
